import Mathlib

set_option linter.unusedVariables false

/-!
Shallow embedding of src/GIS_Project/urban_green_space_analysis.py.

The script sequences calls into an external GIS engine (arcpy) and a plotting
library (matplotlib).  External calls are modelled by an explicit oracle
(`Engine`): for each engine operation the oracle says whether it raises and, for
a successful selection, which feature class content the engine writes.  The
collection of feature classes / geodatabase entries on disk is modelled as an
association list `FS` from paths to `FeatureClass` values; `arcpy.Exists` is
lookup success, creation prepends an entry (`arcpy.env.overwriteOutput = True`,
so creation silently overwrites).  Python exceptions are modelled with
`Except PyErr`; point coordinates and areas are modelled with `Int` (the claims
under study are about control flow and ordering, not coordinate arithmetic).
SQL string literals inside where clauses are written without their quote
characters; the where clause is an opaque input to the external engine and is
never inspected by the script itself.
-/

/-- Python exceptions that the script can observe: `arcpy.ExecuteError`,
`FileNotFoundError` (raised by `find_shapefile`), `IndexError` (raised by numpy
slicing in `create_map`), and any other `Exception`. -/
inductive PyErr where
  | executeError (msg : String)
  | fileNotFoundError (msg : String)
  | indexError (msg : String)
  | otherError (msg : String)
deriving DecidableEq, Repr

/-- A geometry vertex with X and Y coordinates (`pnt.X`, `pnt.Y`). -/
structure Point where
  X : Int
  Y : Int
deriving DecidableEq, Repr

/-- One geometry (`row[0]` of a `SearchCursor` row): a list of parts, each part
a list of possibly-null points (`if pnt:` skips the null ones), together with
the value of `shape.area@hectares` used by `calculate_areas`. -/
structure Geom where
  parts : List (List (Option Point))
  areaHectares : Int
deriving DecidableEq, Repr

/-- A feature class as far as the script observes it: its features, its field
names, and the per-feature values of the computed area field (empty until
`CalculateField` runs). -/
structure FeatureClass where
  geoms : List Geom
  fields : List String
  areaValues : List Int
deriving DecidableEq, Repr

/-- Placeholder content for a geodatabase container entry. -/
def FeatureClass.empty : FeatureClass := ⟨[], [], []⟩

/-- The on-disk store of feature classes and geodatabase containers, keyed by
path.  `fsSet` prepends, so the most recent write shadows older entries. -/
abbrev FS := List (String × FeatureClass)

/-- Lookup of a path in the store (models `arcpy.Exists` plus reading). -/
def fsLookup (fs : FS) (path : String) : Option FeatureClass :=
  match fs.find? (fun e => e.1 == path) with
  | some e => some e.2
  | none => none

/-- Existence test for a path, as `arcpy.Exists` reports it. -/
def fsExists (fs : FS) (path : String) : Bool := (fsLookup fs path).isSome

/-- Creation or overwrite of a feature class at a path. -/
def fsSet (fs : FS) (path : String) (fc : FeatureClass) : FS := (path, fc) :: fs

/-- Boolean substring test, modelling the Python expression
`needle in str(e)`. -/
def containsSub (needle hay : String) : Bool :=
  (List.range (hay.data.length + 1)).any fun i => needle.data.isPrefixOf (hay.data.drop i)

/-- Prefix test on strings (Python `startswith`), computed on the underlying
character lists so that it reduces. -/
def str_startsWith (s pre : String) : Bool := pre.data.isPrefixOf s.data

/-- Suffix test on strings (Python `endswith`), computed on the underlying
character lists so that it reduces. -/
def str_endsWith (s suf : String) : Bool := suf.data.isSuffixOf s.data

/-- Two-argument `os.path.join` with POSIX semantics: an absolute second
component replaces the first, otherwise a single separator is inserted unless
one is already present. -/
def os_path_join (a b : String) : String :=
  if str_startsWith b "/" then b
  else if a = "" ∨ str_endsWith a "/" = true then a ++ b
  else a ++ "/" ++ b

/-- Observable events of the retry loop in `extract_features`: one
`Select_analysis` invocation per loop iteration, and a `time.sleep(delay)`
before each retry. -/
inductive Event where
  | selectCall (attempt : Nat)
  | sleep (seconds : Nat)
deriving DecidableEq, Repr

/-- Recogniser for selection events. -/
def isSelectCall : Event → Bool
  | Event.selectCall _ => true
  | Event.sleep _ => false

/-- Number of `Select_analysis` invocations recorded in a trace. -/
def selectCount (evs : List Event) : Nat := evs.countP isSelectCall

/-- The oracle for every external call the script makes.  `selectErrs fc i` is
the outcome of the `i`-th `Select_analysis` attempt writing to `fc` (`none`
means success) and `selectData fc` is the feature class a successful selection
writes there; the remaining fields give the outcome of the other one-shot
engine and plotting calls. -/
structure Engine where
  createGdbErr : Option PyErr
  files : List String
  selectErrs : String → Nat → Option PyErr
  selectData : String → FeatureClass
  mergeErr : Option PyErr
  copyErr : Option PyErr
  addFieldErr : Option PyErr
  calcFieldErr : Option PyErr
  savePngErr : Option PyErr
  savePdfErr : Option PyErr

/-- Embedding of `setup_workspace` (lines 11-23): join the workspace with the
geodatabase name, create the geodatabase when `arcpy.Exists` fails (the
`CreateFileGDB` call itself may raise, which propagates), reuse it otherwise,
and return the geodatabase path. -/
def setup_workspace (createGdbErr : Option PyErr) (fs : FS) (workspace : String) :
    Except PyErr (FS × String) :=
  let gdb_path := os_path_join workspace "UrbanGreenSpace.gdb"
  if fsExists fs gdb_path = false then
    match createGdbErr with
    | some e => Except.error e
    | none => Except.ok (fsSet fs gdb_path FeatureClass.empty, gdb_path)
  else
    Except.ok (fs, gdb_path)

/-- Semantics of the glob `*pattern*.shp` used with `arcpy.ListFiles`: the file
name ends in `.shp` and contains `pattern` before that extension. -/
def matchesShpPattern (pattern file : String) : Bool :=
  str_endsWith file ".shp" &&
    containsSub pattern (String.mk (file.data.take (file.data.length - 4)))

/-- Embedding of `find_shapefile` (lines 25-29): return the first file of the
workspace listing that matches `*pattern*.shp`, raising `FileNotFoundError`
when the loop over matches is empty. -/
def find_shapefile (workspaceFiles : List String) (pattern : String) : Except PyErr String :=
  match workspaceFiles.filter (matchesShpPattern pattern) with
  | file :: _ => Except.ok file
  | [] => Except.error (PyErr.fileNotFoundError
      ("No shapefile matching *" ++ pattern ++ "*.shp found in the workspace"))

/-- Loop body of `extract_features` (lines 33-43), running over the remaining
values of `for attempt in range(max_attempts)`.  On success the selection
writes the output feature class and the function returns; on
`arcpy.ExecuteError` whose text contains `ERROR 000464` with a retry attempt
remaining it sleeps `delay` seconds and retries; every other failure re-raises
immediately (a non-`ExecuteError` exception is not caught at all). -/
def extractGo (selectErr : Nat → Option PyErr) (result : FeatureClass) (fs : FS)
    (output_fc : String) (max_attempts delay : Nat) :
    List Nat → List Event × Except PyErr FS
  | [] => ([], Except.ok fs)
  | attempt :: rest =>
    match selectErr attempt with
    | none => ([Event.selectCall attempt], Except.ok (fsSet fs output_fc result))
    | some (PyErr.executeError msg) =>
      if containsSub "ERROR 000464" msg = true ∧ attempt < max_attempts - 1 then
        let r := extractGo selectErr result fs output_fc max_attempts delay rest
        (Event.selectCall attempt :: Event.sleep delay :: r.1, r.2)
      else
        ([Event.selectCall attempt], Except.error (PyErr.executeError msg))
    | some e => ([Event.selectCall attempt], Except.error e)

/-- Embedding of `extract_features` (lines 31-43).  The Python defaults are
`max_attempts=5`, `delay=5`.  It returns the trace of selection attempts and
sleeps together with either the updated store or the propagated exception. -/
def extract_features (selectErr : Nat → Option PyErr) (result : FeatureClass) (fs : FS)
    (input_shp output_fc where_clause : String) (max_attempts delay : Nat) :
    List Event × Except PyErr FS :=
  extractGo selectErr result fs output_fc max_attempts delay (List.range max_attempts)

/-- Embedding of `calculate_areas` (lines 45-49): `AddField` appends the
`Area_Hectares` double field, then `CalculateField` evaluates
`!shape.area@hectares!` on every feature; either engine call may raise. -/
def calculate_areas (addFieldErr calcFieldErr : Option PyErr) (fc : FeatureClass) :
    Except PyErr FeatureClass :=
  match addFieldErr with
  | some e => Except.error e
  | none =>
    let fc1 : FeatureClass := { fc with fields := fc.fields ++ ["Area_Hectares"] }
    match calcFieldErr with
    | some e => Except.error e
    | none => Except.ok { fc1 with areaValues := fc1.geoms.map Geom.areaHectares }

/-- Embedding of `feature_to_coords` (lines 51-60): iterate rows of the search
cursor, then parts of each geometry, then points of each part, appending the
(X, Y) pair of every non-null point to the accumulator list. -/
def feature_to_coords (geoms : List Geom) : List (Int × Int) :=
  geoms.foldl (fun coords row =>
    row.parts.foldl (fun coords part =>
      part.foldl (fun coords pnt =>
        match pnt with
        | some p => coords ++ [(p.X, p.Y)]
        | none => coords) coords) coords) []

/-- Content of the combined class written by `arcpy.management.Merge`: the
features of both inputs in order; the computed-area column of the output starts
empty. -/
def mergeFC (a b : FeatureClass) : FeatureClass :=
  { geoms := a.geoms ++ b.geoms, fields := a.fields, areaValues := [] }

/-- Embedding of the merge/copy/warn case analysis of `main` (lines 100-108):
merge when both subset classes exist, copy the one that exists when exactly one
does, and otherwise only print a warning (reported as the returned flag)
without creating anything. -/
def greenSpacesMergeStep (eng : Engine) (fs : FS)
    (parks_fc natural_fc green_spaces_fc : String) : Except PyErr (FS × Bool) :=
  match fsLookup fs parks_fc, fsLookup fs natural_fc with
  | some pfc, some nfc =>
    match eng.mergeErr with
    | some e => Except.error e
    | none => Except.ok (fsSet fs green_spaces_fc (mergeFC pfc nfc), false)
  | some pfc, none =>
    match eng.copyErr with
    | some e => Except.error e
    | none => Except.ok (fsSet fs green_spaces_fc pfc, false)
  | none, some nfc =>
    match eng.copyErr with
    | some e => Except.error e
    | none => Except.ok (fsSet fs green_spaces_fc nfc, false)
  | none, none => Except.ok (fs, true)

/-- Embedding of lines 100-111 of `main`: the merge/copy/warn case analysis
followed by `if arcpy.Exists(green_spaces_fc): calculate_areas(...)`. -/
def greenSpacesSection (eng : Engine) (fs : FS)
    (parks_fc natural_fc green_spaces_fc : String) : Except PyErr (FS × Bool) := do
  let (fs1, warned) ← greenSpacesMergeStep eng fs parks_fc natural_fc green_spaces_fc
  match fsLookup fs1 green_spaces_fc with
  | some gfc => do
    let gfc1 ← calculate_areas eng.addFieldErr eng.calcFieldErr gfc
    Except.ok (fsSet fs1 green_spaces_fc gfc1, warned)
  | none => Except.ok (fs1, warned)

/-- Column extraction `coords[:, j]` on `np.array(coords)`.  When the
coordinate list is empty, `np.array([])` is one-dimensional and the
two-dimensional slice raises `IndexError`; otherwise the array has shape
(n, 2) and the slice yields the j-th components. -/
def np_column (coords : List (Int × Int)) (j : Nat) : Except PyErr (List Int) :=
  match coords with
  | [] => Except.error (PyErr.indexError "too many indices for array")
  | _ => Except.ok (coords.map (fun p => if j = 0 then p.1 else p.2))

/-- The figure state `create_map` builds that the claims observe: the scatter
layers (label with x and y data) and the title. -/
structure MapFig where
  layers : List (String × List Int × List Int)
  title : String
deriving DecidableEq, Repr

/-- One `ax.scatter(coords[:, 0], coords[:, 1], ..., label=...)` call. -/
def scatterLayer (label : String) (coords : List (Int × Int)) :
    Except PyErr (String × List Int × List Int) := do
  let xs ← np_column coords 0
  let ys ← np_column coords 1
  Except.ok (label, xs, ys)

/-- Embedding of `create_map` (lines 62-88): scatter the green-spaces layer
when that class exists, then the residential layer when that class exists, and
return the resulting figure (title from the city name; static styling and the
north arrow carry no data and are not modelled). -/
def create_map (fs : FS) (green_spaces_fc residential_fc city_name : String) :
    Except PyErr MapFig := do
  let greenLayers ←
    match fsLookup fs green_spaces_fc with
    | some fc => do
      let l ← scatterLayer "Green Spaces" (feature_to_coords fc.geoms)
      Except.ok [l]
    | none => Except.ok ([] : List (String × List Int × List Int))
  let resLayers ←
    match fsLookup fs residential_fc with
    | some fc => do
      let l ← scatterLayer "Residential Areas" (feature_to_coords fc.geoms)
      Except.ok [l]
    | none => Except.ok ([] : List (String × List Int × List Int))
  Except.ok { layers := greenLayers ++ resLayers,
              title := "Urban Green Space Analysis - " ++ city_name }

/-- PNG output path derived in `main` (line 121). -/
def png_path (export_location city_name : String) : String :=
  os_path_join export_location ("urban_green_space_map_" ++ city_name ++ ".png")

/-- PDF output path derived in `main` (line 122). -/
def pdf_path (export_location city_name : String) : String :=
  os_path_join export_location ("urban_green_space_analysis_" ++ city_name ++ ".pdf")

/-- Body of the `try` block of `main` (lines 93-133): extract parks and natural
areas, combine them into green spaces with areas, extract residential areas,
build the map, derive the two export paths and write both files.  Any `PyErr`
raised by a step aborts the rest of the block. -/
def mainTry (eng : Engine) (fs : FS) (gdb_path export_location city_name : String) :
    Except PyErr (FS × String × String) := do
  let parks_fc := os_path_join gdb_path "Parks"
  let landuse_shp ← find_shapefile eng.files "landuse"
  let fs ← (extract_features (eng.selectErrs parks_fc) (eng.selectData parks_fc) fs
      landuse_shp parks_fc "fclass IN (park, recreation_ground)" 5 5).2
  let natural_fc := os_path_join gdb_path "NaturalAreas"
  let natural_shp ← find_shapefile eng.files "natural"
  let fs ← (extract_features (eng.selectErrs natural_fc) (eng.selectData natural_fc) fs
      natural_shp natural_fc "fclass IN (forest, grass, meadow)" 5 5).2
  let green_spaces_fc := os_path_join gdb_path "GreenSpaces"
  let (fs, _warned) ← greenSpacesSection eng fs parks_fc natural_fc green_spaces_fc
  let residential_fc := os_path_join gdb_path "Residential"
  let landuse_shp2 ← find_shapefile eng.files "landuse"
  let fs ← (extract_features (eng.selectErrs residential_fc) (eng.selectData residential_fc) fs
      landuse_shp2 residential_fc "fclass = residential" 5 5).2
  let _fig ← create_map fs green_spaces_fc residential_fc city_name
  let png := png_path export_location city_name
  let pdf := pdf_path export_location city_name
  match eng.savePngErr with
  | some e => Except.error e
  | none =>
    match eng.savePdfErr with
    | some e => Except.error e
    | none => Except.ok (fs, png, pdf)

/-- Observable outcome of a completed call to `main`: either the pipeline ran
to the end, or an exception reached the `except Exception` handler, which
prints a message and returns normally. -/
inductive MainResult where
  | completed
  | handledError (e : PyErr)
deriving DecidableEq, Repr

/-- Embedding of `main` (lines 90-137; named `main_run` because Lean reserves
`main` for executable entry points): `setup_workspace` runs BEFORE the `try`
block, so its exceptions propagate out of `main` (`Except.error`); every
exception raised inside the `try` block is caught by the handler and `main`
returns normally (`Except.ok`). -/
def main_run (eng : Engine) (fs : FS) (workspace export_location city_name : String) :
    Except PyErr MainResult :=
  match setup_workspace eng.createGdbErr fs workspace with
  | Except.error e => Except.error e
  | Except.ok (fs1, gdb_path) =>
    match mainTry eng fs1 gdb_path export_location city_name with
    | Except.error e => Except.ok (MainResult.handledError e)
    | Except.ok _ => Except.ok MainResult.completed

/-! Helper lemmas about the store and the embedded functions. -/

/-- Writing a feature class makes it the one found at its path. -/
theorem fsLookup_fsSet_same (fs : FS) (p : String) (fc : FeatureClass) :
    fsLookup (fsSet fs p fc) p = some fc := by
  simp [fsLookup, fsSet, List.find?]

/-- A write at one path does not change lookups at another path. -/
theorem fsLookup_fsSet_other (fs : FS) (p q : String) (fc : FeatureClass) (h : p ≠ q) :
    fsLookup (fsSet fs p fc) q = fsLookup fs q := by
  have hb : (p == q) = false := beq_eq_false_iff_ne.mpr h
  simp [fsLookup, fsSet, List.find?, hb]

/-- A written path exists. -/
theorem fsExists_fsSet_same (fs : FS) (p : String) (fc : FeatureClass) :
    fsExists (fsSet fs p fc) p = true := by
  simp [fsExists, fsLookup_fsSet_same]

/-- Unfolding of the inner point loop of `feature_to_coords`. -/
theorem feature_to_coords_inner (part : List (Option Point)) :
    ∀ (c : List (Int × Int)),
      part.foldl (fun coords pnt => match pnt with
        | some p => coords ++ [(p.X, p.Y)]
        | none => coords) c
        = c ++ part.filterMap (fun pnt => pnt.map (fun p => (p.X, p.Y))) := by
  induction part with
  | nil => intro c; simp
  | cons pnt rest ih =>
    intro c
    cases pnt with
    | some p => simp [List.foldl_cons, ih]
    | none => simp [List.foldl_cons, ih]

/-- Unfolding of the part loop of `feature_to_coords`. -/
theorem feature_to_coords_mid (parts : List (List (Option Point))) :
    ∀ (c : List (Int × Int)),
      parts.foldl (fun coords part =>
        part.foldl (fun coords pnt => match pnt with
          | some p => coords ++ [(p.X, p.Y)]
          | none => coords) coords) c
        = c ++ parts.flatten.filterMap (fun pnt => pnt.map (fun p => (p.X, p.Y))) := by
  induction parts with
  | nil => intro c; simp
  | cons part rest ih =>
    intro c
    simp only [List.foldl_cons]
    rw [feature_to_coords_inner, ih]
    simp [List.filterMap_append, List.append_assoc]

/-- Unfolding of the outer feature loop of `feature_to_coords`. -/
theorem feature_to_coords_outer (geoms : List Geom) :
    ∀ (c : List (Int × Int)),
      geoms.foldl (fun coords row =>
        row.parts.foldl (fun coords part =>
          part.foldl (fun coords pnt => match pnt with
            | some p => coords ++ [(p.X, p.Y)]
            | none => coords) coords) coords) c
        = c ++ ((geoms.map Geom.parts).flatten.flatten).filterMap
            (fun pnt => pnt.map (fun p => (p.X, p.Y))) := by
  induction geoms with
  | nil => intro c; simp
  | cons g rest ih =>
    intro c
    simp only [List.foldl_cons]
    rw [feature_to_coords_mid, ih]
    simp [List.filterMap_append, List.append_assoc]

/-- The retry loop performs one selection attempt per list entry at most. -/
theorem extractGo_count_le (selectErr : Nat → Option PyErr) (result : FeatureClass) (fs : FS)
    (output_fc : String) (max_attempts delay : Nat) :
    ∀ attempts : List Nat,
      selectCount (extractGo selectErr result fs output_fc max_attempts delay attempts).1
        ≤ attempts.length := by
  intro attempts
  induction attempts with
  | nil => simp [extractGo, selectCount]
  | cons a rest ih =>
    cases he : selectErr a with
    | none => simp [extractGo, he, selectCount, isSelectCall]
    | some e =>
      cases e with
      | executeError msg =>
        by_cases hcond : containsSub "ERROR 000464" msg = true ∧ a < max_attempts - 1
        · simp only [extractGo, he, if_pos hcond, selectCount, List.countP_cons, isSelectCall]
          simpa [selectCount] using Nat.add_le_add_right ih 1
        · simp [extractGo, he, if_neg hcond, selectCount, isSelectCall]
      | fileNotFoundError msg => simp [extractGo, he, selectCount, isSelectCall]
      | indexError msg => simp [extractGo, he, selectCount, isSelectCall]
      | otherError msg => simp [extractGo, he, selectCount, isSelectCall]

/-- Step equation of the retry loop: a transient failure with a retry attempt
remaining sleeps and continues with the rest of the attempts. -/
theorem extractGo_cons_retry (selectErr : Nat → Option PyErr) (result : FeatureClass)
    (fs : FS) (output_fc : String) (max_attempts delay attempt : Nat) (rest : List Nat)
    (msg : String) (h : selectErr attempt = some (PyErr.executeError msg))
    (hc : containsSub "ERROR 000464" msg = true ∧ attempt < max_attempts - 1) :
    extractGo selectErr result fs output_fc max_attempts delay (attempt :: rest)
      = (Event.selectCall attempt :: Event.sleep delay ::
          (extractGo selectErr result fs output_fc max_attempts delay rest).1,
         (extractGo selectErr result fs output_fc max_attempts delay rest).2) := by
  simp only [extractGo, h]
  rw [if_pos hc]

/-- Step equation of the retry loop: an `ExecuteError` that is not transient or
has no retry attempt remaining is re-raised at once. -/
theorem extractGo_cons_raise (selectErr : Nat → Option PyErr) (result : FeatureClass)
    (fs : FS) (output_fc : String) (max_attempts delay attempt : Nat) (rest : List Nat)
    (msg : String) (h : selectErr attempt = some (PyErr.executeError msg))
    (hc : ¬(containsSub "ERROR 000464" msg = true ∧ attempt < max_attempts - 1)) :
    extractGo selectErr result fs output_fc max_attempts delay (attempt :: rest)
      = ([Event.selectCall attempt], Except.error (PyErr.executeError msg)) := by
  simp only [extractGo, h]
  rw [if_neg hc]

/-- When every remaining attempt fails with the transient engine error, the
loop walks all remaining attempts, sleeps between them, and re-raises the error
of the final attempt. -/
theorem extractGo_all_transient (selectErr : Nat → Option PyErr) (result : FeatureClass)
    (fs : FS) (output_fc : String) (max_attempts delay : Nat) :
    ∀ n a, a + n = max_attempts → 1 ≤ n →
      (∀ i, a ≤ i → i < max_attempts → ∃ msg, selectErr i = some (PyErr.executeError msg) ∧
        containsSub "ERROR 000464" msg = true) →
      ∃ msg, selectErr (max_attempts - 1) = some (PyErr.executeError msg) ∧
        (extractGo selectErr result fs output_fc max_attempts delay (List.range' a n)).2
          = Except.error (PyErr.executeError msg) ∧
        selectCount
          (extractGo selectErr result fs output_fc max_attempts delay (List.range' a n)).1
          = n := by
  intro n
  induction n with
  | zero => intro a _ h1 _; omega
  | succ m ih =>
    intro a hsum _ htrans
    obtain ⟨msg, hmsg, hsub⟩ := htrans a (Nat.le_refl a) (by omega)
    cases m with
    | zero =>
      have ha : a = max_attempts - 1 := by omega
      have hstep := extractGo_cons_raise selectErr result fs output_fc max_attempts delay a
        [] msg hmsg (by omega)
      have hr : List.range' a 1 = [a] := by simp
      refine ⟨msg, by rw [← ha]; exact hmsg, ?_, ?_⟩
      · rw [hr, hstep]
      · rw [hr, hstep]
        simp [selectCount, isSelectCall]
    | succ k =>
      have hrange : List.range' a (k + 1 + 1) = a :: List.range' (a + 1) (k + 1) :=
        List.range'_succ a (k + 1) 1
      obtain ⟨msg2, hmsg2, hres2, hcount2⟩ :=
        ih (a + 1) (by omega) (by omega) (fun i hi hlt => htrans i (by omega) hlt)
      have hstep := extractGo_cons_retry selectErr result fs output_fc max_attempts delay a
        (List.range' (a + 1) (k + 1)) msg hmsg ⟨hsub, by omega⟩
      refine ⟨msg2, hmsg2, ?_, ?_⟩
      · rw [hrange, hstep]
        exact hres2
      · rw [hrange, hstep]
        simp only [selectCount] at hcount2
        simp [selectCount, List.countP_cons, isSelectCall, hcount2]

/-! Claim theorems. -/

/-- C1: for every input, output feature class and where clause,
`extract_features` makes at most `max_attempts` attempts of the selection
operation, and when the transient engine error occurs on every attempt
(so also on the final one) the loop stops after exactly `max_attempts`
selections and re-raises the failure of the final attempt. -/
theorem extract_features_retry_bound (selectErr : Nat → Option PyErr) (result : FeatureClass)
    (fs : FS) (input_shp output_fc where_clause : String) (max_attempts delay : Nat) :
    selectCount (extract_features selectErr result fs input_shp output_fc where_clause
      max_attempts delay).1 ≤ max_attempts ∧
    (1 ≤ max_attempts →
      (∀ i, i < max_attempts → ∃ msg, selectErr i = some (PyErr.executeError msg) ∧
        containsSub "ERROR 000464" msg = true) →
      ∃ msg, selectErr (max_attempts - 1) = some (PyErr.executeError msg) ∧
        (extract_features selectErr result fs input_shp output_fc where_clause
          max_attempts delay).2 = Except.error (PyErr.executeError msg) ∧
        selectCount (extract_features selectErr result fs input_shp output_fc where_clause
          max_attempts delay).1 = max_attempts) := by
  constructor
  · have h := extractGo_count_le selectErr result fs output_fc max_attempts delay
      (List.range max_attempts)
    simpa [extract_features, List.length_range] using h
  · intro hmax htrans
    have h := extractGo_all_transient selectErr result fs output_fc max_attempts delay
      max_attempts 0 (by omega) hmax (fun i _ hi => htrans i hi)
    simpa [extract_features, List.range_eq_range'] using h

/-- Transient oracle used by the witnesses: every attempt raises the retried
engine error. -/
def efTransient : Nat → Option PyErr := fun _ => some (PyErr.executeError "ERROR 000464")

/-- Oracle used by the witnesses: every attempt raises an exception that is not
an `ExecuteError`. -/
def efOther : Nat → Option PyErr := fun _ => some (PyErr.otherError "kaput")

/-- Concrete feature class used by the witnesses. -/
def fcWitness : FeatureClass := ⟨[⟨[[some ⟨1, 2⟩]], 3⟩], ["fclass"], []⟩

/-- Witness for C1 at `max_attempts = 3` with every attempt transient. -/
theorem extract_features_retry_bound_witness :
    (1 : Nat) ≤ 3 ∧
    (∃ msg, efTransient 2 = some (PyErr.executeError msg) ∧
      (extract_features efTransient fcWitness [] "landuse.shp" "out" "wc" 3 5).2
        = Except.error (PyErr.executeError msg) ∧
      selectCount (extract_features efTransient fcWitness [] "landuse.shp" "out" "wc" 3 5).1
        = 3) :=
  ⟨by decide,
   (extract_features_retry_bound efTransient fcWitness [] "landuse.shp" "out" "wc" 3 5).2
     (by decide) (fun i hi => ⟨"ERROR 000464", rfl, by decide⟩)⟩

/-- C2: `extract_features` retries only when the raised engine error contains
`ERROR 000464` and a retry attempt remains, sleeping `delay` seconds before the
retry; any other failure of the selection propagates immediately, with no sleep
and no further attempt. -/
theorem extract_features_transient_only (selectErr : Nat → Option PyErr) (result : FeatureClass)
    (fs : FS) (input_shp output_fc where_clause : String) (max_attempts delay : Nat) :
    (∀ e, 1 ≤ max_attempts → selectErr 0 = some e →
      ¬((∃ msg, e = PyErr.executeError msg ∧ containsSub "ERROR 000464" msg = true) ∧
          0 < max_attempts - 1) →
      extract_features selectErr result fs input_shp output_fc where_clause max_attempts delay
        = ([Event.selectCall 0], Except.error e)) ∧
    (∀ attempt rest msg, selectErr attempt = some (PyErr.executeError msg) →
      containsSub "ERROR 000464" msg = true → attempt < max_attempts - 1 →
      extractGo selectErr result fs output_fc max_attempts delay (attempt :: rest)
        = (Event.selectCall attempt :: Event.sleep delay ::
            (extractGo selectErr result fs output_fc max_attempts delay rest).1,
           (extractGo selectErr result fs output_fc max_attempts delay rest).2)) := by
  constructor
  · intro e hmax h0 hnot
    obtain ⟨k, rfl⟩ : ∃ k, max_attempts = k + 1 := ⟨max_attempts - 1, by omega⟩
    have hrange : List.range (k + 1) = 0 :: List.range' 1 k := by
      rw [List.range_eq_range']
      simpa using List.range'_succ 0 k 1
    cases e with
    | executeError msg =>
      have hc : ¬(containsSub "ERROR 000464" msg = true ∧ 0 < k + 1 - 1) := by
        intro hcc
        exact hnot ⟨⟨msg, rfl, hcc.1⟩, hcc.2⟩
      unfold extract_features
      rw [hrange]
      exact extractGo_cons_raise selectErr result fs output_fc (k + 1) delay 0
        (List.range' 1 k) msg h0 hc
    | fileNotFoundError msg =>
      unfold extract_features
      rw [hrange]
      simp [extractGo, h0]
    | indexError msg =>
      unfold extract_features
      rw [hrange]
      simp [extractGo, h0]
    | otherError msg =>
      unfold extract_features
      rw [hrange]
      simp [extractGo, h0]
  · intro attempt rest msg hmsg hsub hlt
    exact extractGo_cons_retry selectErr result fs output_fc max_attempts delay attempt rest
      msg hmsg ⟨hsub, hlt⟩

/-- Witness for C2: a non-`ExecuteError` failure propagates at once, and a
transient failure with attempts remaining sleeps and retries. -/
theorem extract_features_transient_only_witness :
    extract_features efOther fcWitness [] "landuse.shp" "out" "wc" 5 5
      = ([Event.selectCall 0], Except.error (PyErr.otherError "kaput")) ∧
    extractGo efTransient fcWitness [] "out" 5 5 (0 :: [1])
      = (Event.selectCall 0 :: Event.sleep 5 ::
          (extractGo efTransient fcWitness [] "out" 5 5 [1]).1,
         (extractGo efTransient fcWitness [] "out" 5 5 [1]).2) :=
  ⟨(extract_features_transient_only efOther fcWitness [] "landuse.shp" "out" "wc" 5 5).1
      (PyErr.otherError "kaput") (by decide) rfl
      (by rintro ⟨⟨msg, hmsg, _⟩, _⟩; exact PyErr.noConfusion hmsg),
   (extract_features_transient_only efTransient fcWitness [] "landuse.shp" "out" "wc" 5 5).2
      0 [1] "ERROR 000464" rfl (by decide) (by decide)⟩

/-- C9: with `max_attempts = 0` the loop body never runs: no selection attempt
is made, the function returns normally and the store is unchanged (the output
feature class is not created); the selection runs at least once exactly when
`max_attempts ≥ 1`. -/
theorem extract_features_zero_attempts (selectErr : Nat → Option PyErr) (result : FeatureClass)
    (fs : FS) (input_shp output_fc where_clause : String) (max_attempts delay : Nat) :
    extract_features selectErr result fs input_shp output_fc where_clause 0 delay
      = ([], Except.ok fs) ∧
    (1 ≤ max_attempts →
      1 ≤ selectCount (extract_features selectErr result fs input_shp output_fc where_clause
        max_attempts delay).1) := by
  constructor
  · rfl
  · intro hmax
    obtain ⟨k, rfl⟩ : ∃ k, max_attempts = k + 1 := ⟨max_attempts - 1, by omega⟩
    have hrange : List.range (k + 1) = 0 :: List.range' 1 k := by
      rw [List.range_eq_range']
      simpa using List.range'_succ 0 k 1
    unfold extract_features
    rw [hrange]
    cases h0 : selectErr 0 with
    | none => simp [extractGo, h0, selectCount, isSelectCall]
    | some e =>
      cases e with
      | executeError msg =>
        by_cases hc : containsSub "ERROR 000464" msg = true ∧ 0 < k + 1 - 1
        · rw [extractGo_cons_retry selectErr result fs output_fc (k + 1) delay 0
            (List.range' 1 k) msg h0 hc]
          have hc1 : selectCount (Event.selectCall 0 :: Event.sleep delay ::
              (extractGo selectErr result fs output_fc (k + 1) delay (List.range' 1 k)).1)
              = selectCount
                  (extractGo selectErr result fs output_fc (k + 1) delay (List.range' 1 k)).1
                + 1 := by
            simp [selectCount, List.countP_cons, isSelectCall]
          rw [hc1]
          omega
        · rw [extractGo_cons_raise selectErr result fs output_fc (k + 1) delay 0
            (List.range' 1 k) msg h0 hc]
          simp [selectCount, isSelectCall]
      | fileNotFoundError msg => simp [extractGo, h0, selectCount, isSelectCall]
      | indexError msg => simp [extractGo, h0, selectCount, isSelectCall]
      | otherError msg => simp [extractGo, h0, selectCount, isSelectCall]

/-- Witness for C9: zero attempts perform nothing, five attempts select at
least once. -/
theorem extract_features_zero_attempts_witness :
    extract_features efTransient fcWitness [] "landuse.shp" "out" "wc" 0 5
      = ([], Except.ok []) ∧
    1 ≤ selectCount (extract_features efTransient fcWitness [] "landuse.shp" "out" "wc" 5 5).1 :=
  ⟨(extract_features_zero_attempts efTransient fcWitness [] "landuse.shp" "out" "wc" 5 5).1,
   (extract_features_zero_attempts efTransient fcWitness [] "landuse.shp" "out" "wc" 5 5).2
     (by decide)⟩

/-- C3: `feature_to_coords` flattens nested geometry by iterating feature, then
part, then point, skipping null points; the result is exactly the in-order
filterMap of the feature/part/point traversal, so a non-null point appears
before another precisely when it is visited earlier. -/
theorem feature_to_coords_order (geoms : List Geom) :
    feature_to_coords geoms
      = ((geoms.map Geom.parts).flatten.flatten).filterMap
          (fun pnt => pnt.map (fun p => (p.X, p.Y))) := by
  have h := feature_to_coords_outer geoms []
  simpa [feature_to_coords] using h

/-- C4: the two output file paths are deterministic functions of the export
location and the city name: the PNG path joins the export location with
`urban_green_space_map_<city>.png`, the PDF path with
`urban_green_space_analysis_<city>.pdf`, and equal inputs give equal paths. -/
theorem output_paths_deterministic (export_location city_name el2 cn2 : String) :
    png_path export_location city_name
      = os_path_join export_location ("urban_green_space_map_" ++ city_name ++ ".png") ∧
    pdf_path export_location city_name
      = os_path_join export_location ("urban_green_space_analysis_" ++ city_name ++ ".pdf") ∧
    (export_location = el2 → city_name = cn2 →
      png_path export_location city_name = png_path el2 cn2 ∧
      pdf_path export_location city_name = pdf_path el2 cn2) := by
  refine ⟨rfl, rfl, ?_⟩
  rintro rfl rfl
  exact ⟨rfl, rfl⟩

/-- Witness for C4 at a concrete export location and city name. -/
theorem output_paths_deterministic_witness :
    png_path "/gis/Exports" "Springfield"
      = os_path_join "/gis/Exports" ("urban_green_space_map_" ++ "Springfield" ++ ".png") ∧
    pdf_path "/gis/Exports" "Springfield"
      = os_path_join "/gis/Exports" ("urban_green_space_analysis_" ++ "Springfield" ++ ".pdf") ∧
    (png_path "/gis/Exports" "Springfield" = png_path "/gis/Exports" "Springfield" ∧
     pdf_path "/gis/Exports" "Springfield" = pdf_path "/gis/Exports" "Springfield") :=
  ⟨(output_paths_deterministic "/gis/Exports" "Springfield" "/gis/Exports" "Springfield").1,
   (output_paths_deterministic "/gis/Exports" "Springfield" "/gis/Exports" "Springfield").2.1,
   (output_paths_deterministic "/gis/Exports" "Springfield" "/gis/Exports" "Springfield").2.2
     rfl rfl⟩

/-- C5: whenever `setup_workspace` returns, it returns the path
`workspace/UrbanGreenSpace.gdb`, that path exists in the resulting store, an
already existing geodatabase is reused with the store unchanged, and a missing
one is created (which requires the `CreateFileGDB` call to succeed). -/
theorem setup_workspace_ensures_gdb (createGdbErr : Option PyErr) (fs : FS)
    (workspace : String) (fs2 : FS) (p : String)
    (h : setup_workspace createGdbErr fs workspace = Except.ok (fs2, p)) :
    p = os_path_join workspace "UrbanGreenSpace.gdb" ∧
    fsExists fs2 p = true ∧
    (fsExists fs p = true → fs2 = fs) ∧
    (fsExists fs p = false →
      fs2 = fsSet fs p FeatureClass.empty ∧ createGdbErr = none) := by
  cases hfs : fsExists fs (os_path_join workspace "UrbanGreenSpace.gdb") with
  | false =>
    cases createGdbErr with
    | some e =>
      exfalso
      simp [setup_workspace, hfs] at h
    | none =>
      simp [setup_workspace, hfs] at h
      obtain ⟨h1, h2⟩ := h
      subst h1
      subst h2
      refine ⟨rfl, fsExists_fsSet_same fs _ FeatureClass.empty, ?_, ?_⟩
      · intro htrue
        rw [htrue] at hfs
        cases hfs
      · intro _
        exact ⟨rfl, rfl⟩
  | true =>
    simp [setup_workspace, hfs] at h
    obtain ⟨h1, h2⟩ := h
    subst h1
    subst h2
    refine ⟨rfl, hfs, fun _ => rfl, ?_⟩
    intro hfalse
    rw [hfalse] at hfs
    cases hfs

/-- Witness for C5: creating the geodatabase in an empty workspace. -/
theorem setup_workspace_ensures_gdb_witness :
    "ws/UrbanGreenSpace.gdb" = os_path_join "ws" "UrbanGreenSpace.gdb" ∧
    fsExists (fsSet [] "ws/UrbanGreenSpace.gdb" FeatureClass.empty) "ws/UrbanGreenSpace.gdb"
      = true ∧
    (fsExists [] "ws/UrbanGreenSpace.gdb" = true →
      fsSet [] "ws/UrbanGreenSpace.gdb" FeatureClass.empty = []) ∧
    (fsExists [] "ws/UrbanGreenSpace.gdb" = false →
      fsSet [] "ws/UrbanGreenSpace.gdb" FeatureClass.empty
        = fsSet [] "ws/UrbanGreenSpace.gdb" FeatureClass.empty ∧
      (none : Option PyErr) = none) :=
  setup_workspace_ensures_gdb none [] "ws"
    (fsSet [] "ws/UrbanGreenSpace.gdb" FeatureClass.empty) "ws/UrbanGreenSpace.gdb" rfl

/-- Computation of `greenSpacesSection` when both subset classes exist and the
engine calls succeed: the classes are merged and the area field computed. -/
theorem greenSpacesSection_both (eng : Engine) (fs : FS)
    (parks_fc natural_fc green_spaces_fc : String) (pfc nfc : FeatureClass)
    (hm : eng.mergeErr = none) (ha : eng.addFieldErr = none) (hcf : eng.calcFieldErr = none)
    (hp : fsLookup fs parks_fc = some pfc) (hn : fsLookup fs natural_fc = some nfc) :
    greenSpacesSection eng fs parks_fc natural_fc green_spaces_fc
      = Except.ok (fsSet (fsSet fs green_spaces_fc (mergeFC pfc nfc)) green_spaces_fc
          { geoms := (mergeFC pfc nfc).geoms,
            fields := (mergeFC pfc nfc).fields ++ ["Area_Hectares"],
            areaValues := (mergeFC pfc nfc).geoms.map Geom.areaHectares }, false) := by
  simp [greenSpacesSection, greenSpacesMergeStep, hp, hn, hm, ha, hcf,
    fsLookup_fsSet_same, calculate_areas, Bind.bind, Except.bind]

/-- Computation of `greenSpacesSection` when only the parks class exists: it is
copied and the area field computed. -/
theorem greenSpacesSection_parksOnly (eng : Engine) (fs : FS)
    (parks_fc natural_fc green_spaces_fc : String) (pfc : FeatureClass)
    (hc : eng.copyErr = none) (ha : eng.addFieldErr = none) (hcf : eng.calcFieldErr = none)
    (hp : fsLookup fs parks_fc = some pfc) (hn : fsLookup fs natural_fc = none) :
    greenSpacesSection eng fs parks_fc natural_fc green_spaces_fc
      = Except.ok (fsSet (fsSet fs green_spaces_fc pfc) green_spaces_fc
          { geoms := pfc.geoms,
            fields := pfc.fields ++ ["Area_Hectares"],
            areaValues := pfc.geoms.map Geom.areaHectares }, false) := by
  simp [greenSpacesSection, greenSpacesMergeStep, hp, hn, hc, ha, hcf,
    fsLookup_fsSet_same, calculate_areas, Bind.bind, Except.bind]

/-- Computation of `greenSpacesSection` when only the natural-areas class
exists: it is copied and the area field computed. -/
theorem greenSpacesSection_naturalOnly (eng : Engine) (fs : FS)
    (parks_fc natural_fc green_spaces_fc : String) (nfc : FeatureClass)
    (hc : eng.copyErr = none) (ha : eng.addFieldErr = none) (hcf : eng.calcFieldErr = none)
    (hp : fsLookup fs parks_fc = none) (hn : fsLookup fs natural_fc = some nfc) :
    greenSpacesSection eng fs parks_fc natural_fc green_spaces_fc
      = Except.ok (fsSet (fsSet fs green_spaces_fc nfc) green_spaces_fc
          { geoms := nfc.geoms,
            fields := nfc.fields ++ ["Area_Hectares"],
            areaValues := nfc.geoms.map Geom.areaHectares }, false) := by
  simp [greenSpacesSection, greenSpacesMergeStep, hp, hn, hc, ha, hcf,
    fsLookup_fsSet_same, calculate_areas, Bind.bind, Except.bind]

/-- C6: the combined green-spaces layer is built by case analysis on which
subset classes exist: both existing are merged, exactly one existing is copied,
neither existing only sets the warning flag and creates nothing; and whenever
the green-spaces class exists afterwards it carries the computed
`Area_Hectares` field with the per-feature hectare areas. -/
theorem greenSpaces_case_analysis (eng : Engine) (fs : FS)
    (parks_fc natural_fc green_spaces_fc : String)
    (hm : eng.mergeErr = none) (hc : eng.copyErr = none)
    (ha : eng.addFieldErr = none) (hcf : eng.calcFieldErr = none) :
    ∃ fs2 warned,
      greenSpacesSection eng fs parks_fc natural_fc green_spaces_fc
        = Except.ok (fs2, warned) ∧
      (∀ pfc nfc, fsLookup fs parks_fc = some pfc → fsLookup fs natural_fc = some nfc →
        warned = false ∧ ∃ gfc, fsLookup fs2 green_spaces_fc = some gfc ∧
          gfc.geoms = pfc.geoms ++ nfc.geoms) ∧
      (∀ pfc, fsLookup fs parks_fc = some pfc → fsLookup fs natural_fc = none →
        warned = false ∧ ∃ gfc, fsLookup fs2 green_spaces_fc = some gfc ∧
          gfc.geoms = pfc.geoms) ∧
      (∀ nfc, fsLookup fs parks_fc = none → fsLookup fs natural_fc = some nfc →
        warned = false ∧ ∃ gfc, fsLookup fs2 green_spaces_fc = some gfc ∧
          gfc.geoms = nfc.geoms) ∧
      (fsLookup fs parks_fc = none → fsLookup fs natural_fc = none →
        warned = true ∧ fsExists fs2 green_spaces_fc = fsExists fs green_spaces_fc) ∧
      (∀ gfc, fsLookup fs2 green_spaces_fc = some gfc →
        "Area_Hectares" ∈ gfc.fields ∧
        gfc.areaValues = gfc.geoms.map Geom.areaHectares) := by
  cases hp : fsLookup fs parks_fc with
  | some pfc =>
    cases hn : fsLookup fs natural_fc with
    | some nfc =>
      refine ⟨_, false, greenSpacesSection_both eng fs parks_fc natural_fc green_spaces_fc
        pfc nfc hm ha hcf hp hn, ?_, ?_, ?_, ?_, ?_⟩
      · intro pfc2 nfc2 hp2 hn2
        cases hp2
        cases hn2
        exact ⟨rfl, _, fsLookup_fsSet_same _ _ _, rfl⟩
      · intro pfc2 _ hn2
        exact Option.noConfusion hn2
      · intro nfc2 hp2 _
        exact Option.noConfusion hp2
      · intro hp2 _
        exact Option.noConfusion hp2
      · intro gfc hg
        rw [fsLookup_fsSet_same] at hg
        cases hg
        exact ⟨List.mem_append_right _ (List.mem_singleton.mpr rfl), rfl⟩
    | none =>
      refine ⟨_, false, greenSpacesSection_parksOnly eng fs parks_fc natural_fc green_spaces_fc
        pfc hc ha hcf hp hn, ?_, ?_, ?_, ?_, ?_⟩
      · intro pfc2 nfc2 _ hn2
        exact Option.noConfusion hn2
      · intro pfc2 hp2 _
        cases hp2
        exact ⟨rfl, _, fsLookup_fsSet_same _ _ _, rfl⟩
      · intro nfc2 hp2 _
        exact Option.noConfusion hp2
      · intro hp2 _
        exact Option.noConfusion hp2
      · intro gfc hg
        rw [fsLookup_fsSet_same] at hg
        cases hg
        exact ⟨List.mem_append_right _ (List.mem_singleton.mpr rfl), rfl⟩
  | none =>
    cases hn : fsLookup fs natural_fc with
    | some nfc =>
      refine ⟨_, false, greenSpacesSection_naturalOnly eng fs parks_fc natural_fc
        green_spaces_fc nfc hc ha hcf hp hn, ?_, ?_, ?_, ?_, ?_⟩
      · intro pfc2 nfc2 hp2 _
        exact Option.noConfusion hp2
      · intro pfc2 hp2 _
        exact Option.noConfusion hp2
      · intro nfc2 _ hn2
        cases hn2
        exact ⟨rfl, _, fsLookup_fsSet_same _ _ _, rfl⟩
      · intro _ hn2
        exact Option.noConfusion hn2
      · intro gfc hg
        rw [fsLookup_fsSet_same] at hg
        cases hg
        exact ⟨List.mem_append_right _ (List.mem_singleton.mpr rfl), rfl⟩
    | none =>
      cases hg : fsLookup fs green_spaces_fc with
      | some gfc0 =>
        refine ⟨fsSet fs green_spaces_fc
          { geoms := gfc0.geoms,
            fields := gfc0.fields ++ ["Area_Hectares"],
            areaValues := gfc0.geoms.map Geom.areaHectares }, true, ?_, ?_, ?_, ?_, ?_, ?_⟩
        · simp [greenSpacesSection, greenSpacesMergeStep, hp, hn, hg, ha, hcf,
            calculate_areas, Bind.bind, Except.bind]
        · intro pfc2 nfc2 hp2 _
          exact Option.noConfusion hp2
        · intro pfc2 hp2 _
          exact Option.noConfusion hp2
        · intro nfc2 _ hn2
          exact Option.noConfusion hn2
        · intro _ _
          refine ⟨rfl, ?_⟩
          rw [fsExists, fsLookup_fsSet_same, fsExists, hg]
          rfl
        · intro gfc hg2
          rw [fsLookup_fsSet_same] at hg2
          cases hg2
          exact ⟨List.mem_append_right _ (List.mem_singleton.mpr rfl), rfl⟩
      | none =>
        refine ⟨fs, true, ?_, ?_, ?_, ?_, ?_, ?_⟩
        · simp [greenSpacesSection, greenSpacesMergeStep, hp, hn, hg,
            Bind.bind, Except.bind]
        · intro pfc2 nfc2 hp2 _
          exact Option.noConfusion hp2
        · intro pfc2 hp2 _
          exact Option.noConfusion hp2
        · intro nfc2 _ hn2
          exact Option.noConfusion hn2
        · intro _ _
          exact ⟨rfl, rfl⟩
        · intro gfc hg2
          rw [hg] at hg2
          exact Option.noConfusion hg2

/-- Concrete engine for witnesses in which every external call succeeds. -/
def engOk : Engine :=
  { createGdbErr := none, files := ["city_landuse.shp", "city_natural.shp"],
    selectErrs := fun _ _ => none, selectData := fun _ => fcWitness,
    mergeErr := none, copyErr := none, addFieldErr := none, calcFieldErr := none,
    savePngErr := none, savePdfErr := none }

/-- Witness for C6: both subset classes exist in a concrete store. -/
theorem greenSpaces_case_analysis_witness :
    engOk.mergeErr = none ∧ engOk.copyErr = none ∧
    engOk.addFieldErr = none ∧ engOk.calcFieldErr = none ∧
    (∃ fs2 warned,
      greenSpacesSection engOk [("P", fcWitness), ("N", fcWitness)] "P" "N" "G"
        = Except.ok (fs2, warned) ∧
      (∀ pfc nfc, fsLookup [("P", fcWitness), ("N", fcWitness)] "P" = some pfc →
        fsLookup [("P", fcWitness), ("N", fcWitness)] "N" = some nfc →
        warned = false ∧ ∃ gfc, fsLookup fs2 "G" = some gfc ∧
          gfc.geoms = pfc.geoms ++ nfc.geoms) ∧
      (∀ pfc, fsLookup [("P", fcWitness), ("N", fcWitness)] "P" = some pfc →
        fsLookup [("P", fcWitness), ("N", fcWitness)] "N" = none →
        warned = false ∧ ∃ gfc, fsLookup fs2 "G" = some gfc ∧ gfc.geoms = pfc.geoms) ∧
      (∀ nfc, fsLookup [("P", fcWitness), ("N", fcWitness)] "P" = none →
        fsLookup [("P", fcWitness), ("N", fcWitness)] "N" = some nfc →
        warned = false ∧ ∃ gfc, fsLookup fs2 "G" = some gfc ∧ gfc.geoms = nfc.geoms) ∧
      (fsLookup [("P", fcWitness), ("N", fcWitness)] "P" = none →
        fsLookup [("P", fcWitness), ("N", fcWitness)] "N" = none →
        warned = true ∧
        fsExists fs2 "G" = fsExists [("P", fcWitness), ("N", fcWitness)] "G") ∧
      (∀ gfc, fsLookup fs2 "G" = some gfc →
        "Area_Hectares" ∈ gfc.fields ∧
        gfc.areaValues = gfc.geoms.map Geom.areaHectares)) :=
  ⟨rfl, rfl, rfl, rfl,
   greenSpaces_case_analysis engOk [("P", fcWitness), ("N", fcWitness)] "P" "N" "G"
     rfl rfl rfl rfl⟩

/-- Concrete engine whose `CreateFileGDB` call fails. -/
def engFailGdb : Engine :=
  { createGdbErr := some (PyErr.executeError "ERROR 000210: Cannot create output"),
    files := [], selectErrs := fun _ _ => none, selectData := fun _ => FeatureClass.empty,
    mergeErr := none, copyErr := none, addFieldErr := none, calcFieldErr := none,
    savePngErr := none, savePdfErr := none }

/-- C7 counterexample: `setup_workspace` runs before the `try` block of `main`,
so a failure of the `CreateFileGDB` call escapes `main` (the run ends in
`Except.error`, an uncaught exception) instead of reaching the printing
handler. -/
theorem main_run_escape_counterexample :
    main_run engFailGdb [] "ws" "exports" "Atlantis"
      = Except.error (PyErr.executeError "ERROR 000210: Cannot create output") := rfl

/-- C7 (amended): once `setup_workspace` has returned (its geodatabase already
exists or `CreateFileGDB` succeeds), every failure raised inside the `try`
block of `main` is caught by the top-level handler, which prints a message and
returns normally: no exception escapes `main`. -/
theorem main_run_handles_try_block (eng : Engine) (fs : FS)
    (workspace export_location city_name : String)
    (h : fsExists fs (os_path_join workspace "UrbanGreenSpace.gdb") = true ∨
      eng.createGdbErr = none) :
    ∃ r, main_run eng fs workspace export_location city_name = Except.ok r := by
  have hsetup : ∃ fs1 gdb,
      setup_workspace eng.createGdbErr fs workspace = Except.ok (fs1, gdb) := by
    cases h with
    | inl hex =>
      refine ⟨fs, os_path_join workspace "UrbanGreenSpace.gdb", ?_⟩
      simp [setup_workspace, hex]
    | inr hnone =>
      cases hfe : fsExists fs (os_path_join workspace "UrbanGreenSpace.gdb") with
      | false =>
        refine ⟨fsSet fs (os_path_join workspace "UrbanGreenSpace.gdb") FeatureClass.empty,
          os_path_join workspace "UrbanGreenSpace.gdb", ?_⟩
        simp [setup_workspace, hfe, hnone]
      | true =>
        refine ⟨fs, os_path_join workspace "UrbanGreenSpace.gdb", ?_⟩
        simp [setup_workspace, hfe]
  obtain ⟨fs1, gdb, hs⟩ := hsetup
  cases hmt : mainTry eng fs1 gdb export_location city_name with
  | error e => exact ⟨MainResult.handledError e, by simp [main_run, hs, hmt]⟩
  | ok v => exact ⟨MainResult.completed, by simp [main_run, hs, hmt]⟩

/-- Witness for the amended C7 at a concrete, fully succeeding engine. -/
theorem main_run_handles_try_block_witness :
    (fsExists ([] : FS) (os_path_join "ws" "UrbanGreenSpace.gdb") = true ∨
      engOk.createGdbErr = none) ∧
    ∃ r, main_run engOk [] "ws" "exports" "Springfield" = Except.ok r :=
  ⟨Or.inr rfl,
   main_run_handles_try_block engOk [] "ws" "exports" "Springfield" (Or.inr rfl)⟩

/-- C8: `find_shapefile` returns the first file of the workspace listing whose
name matches `*pattern*.shp`, and raises `FileNotFoundError` exactly when no
file in the listing matches. -/
theorem find_shapefile_first_match (workspaceFiles : List String) (pattern : String) :
    (∀ l1 file l2, workspaceFiles = l1 ++ file :: l2 →
      (∀ g, g ∈ l1 → matchesShpPattern pattern g = false) →
      matchesShpPattern pattern file = true →
      find_shapefile workspaceFiles pattern = Except.ok file) ∧
    (find_shapefile workspaceFiles pattern
        = Except.error (PyErr.fileNotFoundError
            ("No shapefile matching *" ++ pattern ++ "*.shp found in the workspace"))
      ↔ ∀ file, file ∈ workspaceFiles → matchesShpPattern pattern file = false) := by
  constructor
  · rintro l1 file l2 rfl hl1 hfile
    have h1 : l1.filter (matchesShpPattern pattern) = [] :=
      List.filter_eq_nil_iff.mpr (fun a ha => by simp [hl1 a ha])
    have hfil : (l1 ++ file :: l2).filter (matchesShpPattern pattern)
        = file :: l2.filter (matchesShpPattern pattern) := by
      rw [List.filter_append, h1, List.filter_cons_of_pos hfile]
      rfl
    simp [find_shapefile, hfil]
  · constructor
    · intro herr file hmem
      cases hfil : workspaceFiles.filter (matchesShpPattern pattern) with
      | nil =>
        have := List.filter_eq_nil_iff.mp hfil file hmem
        simpa using this
      | cons f t =>
        exfalso
        simp [find_shapefile, hfil] at herr
    · intro hall
      have hfil : workspaceFiles.filter (matchesShpPattern pattern) = [] :=
        List.filter_eq_nil_iff.mpr (fun a ha => by simp [hall a ha])
      simp [find_shapefile, hfil]

/-- Witness for C8: the first matching file of a concrete listing is returned,
skipping a non-matching file before it. -/
theorem find_shapefile_first_match_witness :
    (["a.txt", "city_landuse.shp", "landuse2.shp"] : List String)
        = ["a.txt"] ++ "city_landuse.shp" :: ["landuse2.shp"] ∧
    matchesShpPattern "landuse" "city_landuse.shp" = true ∧
    find_shapefile ["a.txt", "city_landuse.shp", "landuse2.shp"] "landuse"
      = Except.ok "city_landuse.shp" :=
  ⟨rfl, by decide,
   (find_shapefile_first_match ["a.txt", "city_landuse.shp", "landuse2.shp"] "landuse").1
     ["a.txt"] "city_landuse.shp" ["landuse2.shp"] rfl (by decide) (by decide)⟩

/-- C10: when a plotted feature class exists but its flattening yields no
coordinates, `create_map` raises the numpy `IndexError` from slicing the empty
array; the slicing is safe (the map is produced) when every existing plotted
class flattens to a non-empty coordinate list. -/
theorem create_map_empty_coords (fs : FS) (green_spaces_fc residential_fc city_name : String) :
    (∀ gfc, fsLookup fs green_spaces_fc = some gfc → feature_to_coords gfc.geoms = [] →
      create_map fs green_spaces_fc residential_fc city_name
        = Except.error (PyErr.indexError "too many indices for array")) ∧
    (∀ rfc, (∀ gfc, fsLookup fs green_spaces_fc = some gfc →
        feature_to_coords gfc.geoms ≠ []) →
      fsLookup fs residential_fc = some rfc → feature_to_coords rfc.geoms = [] →
      create_map fs green_spaces_fc residential_fc city_name
        = Except.error (PyErr.indexError "too many indices for array")) ∧
    ((∀ gfc, fsLookup fs green_spaces_fc = some gfc → feature_to_coords gfc.geoms ≠ []) →
     (∀ rfc, fsLookup fs residential_fc = some rfc → feature_to_coords rfc.geoms ≠ []) →
      ∃ fig, create_map fs green_spaces_fc residential_fc city_name = Except.ok fig) := by
  refine ⟨?_, ?_, ?_⟩
  · intro gfc hgl hcoords
    simp [create_map, scatterLayer, np_column, hgl, hcoords, Bind.bind, Except.bind]
  · intro rfc hgne hrl hcoords
    cases hgl : fsLookup fs green_spaces_fc with
    | none =>
      simp [create_map, scatterLayer, np_column, hgl, hrl, hcoords, Bind.bind, Except.bind]
    | some gfc =>
      cases hgc : feature_to_coords gfc.geoms with
      | nil => exact absurd hgc (hgne gfc hgl)
      | cons a t =>
        simp [create_map, scatterLayer, np_column, hgl, hgc, hrl, hcoords,
          Bind.bind, Except.bind]
  · intro hgne hrne
    cases hgl : fsLookup fs green_spaces_fc with
    | none =>
      cases hrl : fsLookup fs residential_fc with
      | none =>
        simp [create_map, scatterLayer, np_column, hgl, hrl, Bind.bind, Except.bind]
      | some rfc =>
        cases hrc : feature_to_coords rfc.geoms with
        | nil => exact absurd hrc (hrne rfc hrl)
        | cons a t =>
          simp [create_map, scatterLayer, np_column, hgl, hrl, hrc, Bind.bind, Except.bind]
    | some gfc =>
      cases hgc : feature_to_coords gfc.geoms with
      | nil => exact absurd hgc (hgne gfc hgl)
      | cons a t =>
        cases hrl : fsLookup fs residential_fc with
        | none =>
          simp [create_map, scatterLayer, np_column, hgl, hgc, hrl, Bind.bind, Except.bind]
        | some rfc =>
          cases hrc : feature_to_coords rfc.geoms with
          | nil => exact absurd hrc (hrne rfc hrl)
          | cons b u =>
            simp [create_map, scatterLayer, np_column, hgl, hgc, hrl, hrc,
              Bind.bind, Except.bind]

/-- Feature class whose only geometry consists of a single null point, so its
flattening is empty. -/
def fcNull : FeatureClass := ⟨[⟨[[none]], 0⟩], ["fclass"], []⟩

/-- Witness for C10: an existing class of only null points makes `create_map`
raise the `IndexError`. -/
theorem create_map_empty_coords_witness :
    fsLookup [("G", fcNull)] "G" = some fcNull ∧
    feature_to_coords fcNull.geoms = [] ∧
    create_map [("G", fcNull)] "G" "R" "CityX"
      = Except.error (PyErr.indexError "too many indices for array") :=
  ⟨rfl, rfl, (create_map_empty_coords [("G", fcNull)] "G" "R" "CityX").1 fcNull rfl rfl⟩
